import Mathlib

/-!
Shallow embedding of the ILGC research-study frontend
(`TaskForm`, `TaskSession`, `TaskResults` pages and the feedback variant).

JavaScript objects (the parsed JSON records that flow through
`localStorage`) are modelled as association lists of string keys and
JSON-like values; `localStorage` itself is an association list from keys
to such objects.  Each React event handler is embedded as a pure function
from its component state, the ambient inputs (clock strings, the outcome
of the awaited API call) and the store to a result record collecting the
new store, the navigation target, the toast shown and the final flag
state.
-/

/-- JSON-like values of the JavaScript objects handled by the pages.
`undef` stands for JavaScript `undefined` (a missing field accessed via
property lookup). -/
inductive JVal where
  | undef : JVal
  | str (s : String) : JVal
  | num (n : Int) : JVal
  | bool (b : Bool) : JVal
  | arr (xs : List JVal) : JVal
  | obj (fields : List (String × JVal)) : JVal

/-- A JavaScript object: ordered key/value fields. -/
def Obj : Type := List (String × JVal)

/-- `localStorage`: a map from keys to (parsed) stored objects. -/
def Store : Type := List (String × Obj)

/-- First-match lookup in an association list (JS property access /
`localStorage.getItem`). -/
def lookupKV {α : Type} : List (String × α) → String → Option α
  | [], _ => none
  | p :: l, k => if p.1 = k then some p.2 else lookupKV l k

/-- Remove every binding of a key (JS `localStorage.removeItem` / dropping
a key before re-adding it). -/
def eraseKV {α : Type} : List (String × α) → String → List (String × α)
  | [], _ => []
  | p :: l, k => if p.1 = k then eraseKV l k else p :: eraseKV l k

/-- Set a key to a value (JS `localStorage.setItem`, and the override of a
key in an object spread such as `\x7b...task, endTime\x7d`). -/
def insertKV {α : Type} (l : List (String × α)) (k : String) (v : α) : List (String × α) :=
  eraseKV l k ++ [(k, v)]

/-- JavaScript truthiness of a value, as used by `!taskData?.participantId`
and the `||` default in the pages. -/
def jsTruthy : JVal → Bool
  | JVal.undef => false
  | JVal.str s => !(s == "")
  | JVal.num n => !(n == 0)
  | JVal.bool b => b
  | JVal.arr _ => true
  | JVal.obj _ => true

/-- Property access `o.k` on an object: `undefined` when the key is
missing. -/
def fieldOr (o : Obj) (k : String) : JVal :=
  (lookupKV o k).getD JVal.undef

/-- Optional-chained property access `t?.k`: `none` models JS
`undefined`, both when the receiver is absent and when the key is. -/
def optField (t : Option Obj) (k : String) : Option JVal :=
  match t with
  | none => none
  | some o => lookupKV o k

/-- The `formData` state of `TaskForm` (TaskForm.tsx `useState` initial
shape: six strings and a string array of categories). -/
structure FormData where
  name : String
  participantId : String
  batch : String
  category : List String
  taskDescription : String
  estimatedTime : String
  systemType : String

/-- The object literal the spread `\x7b...formData\x7d` contributes: every
field of the form state, in declaration order. -/
def FormData.toObj (fd : FormData) : Obj :=
  [("name", JVal.str fd.name),
   ("participantId", JVal.str fd.participantId),
   ("batch", JVal.str fd.batch),
   ("category", JVal.arr (fd.category.map JVal.str)),
   ("taskDescription", JVal.str fd.taskDescription),
   ("estimatedTime", JVal.str fd.estimatedTime),
   ("systemType", JVal.str fd.systemType)]

/-- The regex test `/^\d+$/.test s`: a non-empty string of decimal
digits. -/
def isAllDigits (s : String) : Bool :=
  !(s.data.isEmpty) && s.data.all (fun c => c.isDigit)

/-- Result shape of `POST /api/save-task-details` as consumed by
`TaskForm.handleSubmit`. -/
structure StartResult where
  interventionsStarted : Bool

/-- Result shape of `POST /api/stop-interventions` as consumed by
`TaskSession.handleEndSession`. -/
structure StopResult where
  status : String
  message : String

/-- Result shape of `POST /api/save-assessment` as consumed by
`TaskResults.handleSubmit`. -/
structure SaveResult where
  isNewFile : Bool
  totalEntries : Int

/-- Observable outcome of one run of `TaskForm.handleSubmit`: the new
`localStorage`, the route passed to `navigate` (if any), whether a toast
was shown and whether it used the destructive variant, and whether
`apiService.saveTaskDetailsAndStart` was called. -/
structure FormSubmitRes where
  storage : Store
  nav : Option String
  toastShown : Bool
  toastDestructive : Bool
  apiCalled : Bool

/-- `TaskForm.handleSubmit` (frontend TaskForm page, lines 52-111).
`startTimeNow` is `new Date().toISOString()` at the time of submission and
`api` is the settled outcome of the awaited
`apiService.saveTaskDetailsAndStart` call. -/
def TaskForm.handleSubmit (formData : FormData) (startTimeNow : String)
    (api : Except String StartResult) (st : Store) : FormSubmitRes :=
  if formData.name = "" ∨ formData.participantId = "" ∨ formData.batch = "" ∨
      formData.category.length = 0 ∨ formData.taskDescription = "" ∨
      formData.estimatedTime = "" ∨ formData.systemType = "" then
    { storage := st, nav := none, toastShown := true, toastDestructive := true,
      apiCalled := false }
  else if ¬ isAllDigits formData.participantId then
    { storage := st, nav := none, toastShown := true, toastDestructive := true,
      apiCalled := false }
  else
    let taskData : Obj := insertKV formData.toObj "startTime" (JVal.str startTimeNow)
    let st1 : Store := insertKV st "currentTask" taskData
    match api with
    | Except.ok _ =>
      { storage := st1, nav := some "/task-session", toastShown := true,
        toastDestructive := false, apiCalled := true }
    | Except.error _ =>
      { storage := st1, nav := none, toastShown := true,
        toastDestructive := true, apiCalled := true }

/-- Observable outcome of one run of `TaskSession.handleEndSession`. -/
structure EndSessionRes where
  storage : Store
  nav : Option String
  toastShown : Bool
  toastDestructive : Bool
  isEndingSession : Bool

/-- The `sessionData` object literal of the success path of
`handleEndSession` (TaskSession.tsx lines 68-73): the spread of the
current task extended with `endTime`, `actualDuration` and
`interventionsStopped`. -/
def sessionDataOk (task : Obj) (endTime : String) (elapsedTime : Int)
    (stopResult : StopResult) : Obj :=
  insertKV (insertKV (insertKV task "endTime" (JVal.str endTime))
    "actualDuration" (JVal.num elapsedTime))
    "interventionsStopped" (JVal.bool (stopResult.status == "success"))

/-- The `sessionData` object literal of the catch path of
`handleEndSession` (TaskSession.tsx lines 97-103): the spread of the
current task extended with `endTime`, `actualDuration`,
`interventionsStopped: false` and the error marker. -/
def sessionDataErr (task : Obj) (endTime : String) (elapsedTime : Int) : Obj :=
  insertKV (insertKV (insertKV (insertKV task "endTime" (JVal.str endTime))
    "actualDuration" (JVal.num elapsedTime))
    "interventionsStopped" (JVal.bool false))
    "error" (JVal.str "Failed to stop interventions")

/-- `TaskSession.handleEndSession` (TaskSession.tsx lines 57-118).
`taskData` and `isEndingSession` are the component state at click time,
`elapsedTime` the current timer value, `endTime` the clock reading
`new Date().toISOString()`, and `stop` the settled outcome of the awaited
`apiService.stopInterventions` call (`Except.error` models a rejected
promise caught by the `catch` block). -/
def TaskSession.handleEndSession (taskData : Option Obj) (isEndingSession : Bool)
    (elapsedTime : Int) (endTime : String) (stop : Except String StopResult)
    (st : Store) : EndSessionRes :=
  match taskData with
  | none =>
    { storage := st, nav := none, toastShown := false, toastDestructive := false,
      isEndingSession := isEndingSession }
  | some task =>
    if isEndingSession then
      { storage := st, nav := none, toastShown := false, toastDestructive := false,
        isEndingSession := isEndingSession }
    else
      match stop with
      | Except.ok stopResult =>
        { storage := insertKV st "completedTask" (sessionDataOk task endTime elapsedTime stopResult)
          nav := some "/task-results"
          toastShown := true
          toastDestructive := !(stopResult.status == "success")
          isEndingSession := false }
      | Except.error _ =>
        { storage := insertKV st "completedTask" (sessionDataErr task endTime elapsedTime)
          nav := some "/task-results"
          toastShown := true
          toastDestructive := true
          isEndingSession := false }

/-- The `nasaTlx` state of `TaskResults` (six NASA TLX ratings kept as
strings, empty string meaning unanswered). -/
structure NasaTlx where
  mental : String
  physical : String
  temporal : String
  performance : String
  effort : String
  frustration : String

/-- The `likertResponses` state of `TaskResults` (three Likert ratings
kept as strings, empty string meaning unanswered). -/
structure LikertResponses where
  accuracy : String
  effectiveness : String
  personalisation : String

/-- `Object.values(nasaTlx)` in field declaration order. -/
def NasaTlx.values (n : NasaTlx) : List String :=
  [n.mental, n.physical, n.temporal, n.performance, n.effort, n.frustration]

/-- `Object.values(likertResponses)` in field declaration order. -/
def LikertResponses.values (l : LikertResponses) : List String :=
  [l.accuracy, l.effectiveness, l.personalisation]

/-- `uploadedFile?.name || "No file uploaded"`: the uploaded file name
with the JS falsy default. -/
def fileNameOrDefault (uploadedFile : Option String) : String :=
  match uploadedFile with
  | some n => if n == "" then "No file uploaded" else n
  | none => "No file uploaded"

/-- The `assessmentData` object literal built by `TaskResults.handleSubmit`
(TaskResults.tsx lines 93-104). -/
def mkAssessmentData (task : Obj) (uploadedFile : Option String)
    (nasaTlx : NasaTlx) (likertResponses : LikertResponses)
    (submittedAt : String) : Obj :=
  [("participantId", fieldOr task "participantId"),
   ("batch", fieldOr task "batch"),
   ("category", fieldOr task "category"),
   ("taskDescription", fieldOr task "taskDescription"),
   ("name", fieldOr task "name"),
   ("estimatedTime", fieldOr task "estimatedTime"),
   ("file", JVal.str (fileNameOrDefault uploadedFile)),
   ("nasaTlx", JVal.obj
     [("mental", JVal.str nasaTlx.mental),
      ("physical", JVal.str nasaTlx.physical),
      ("temporal", JVal.str nasaTlx.temporal),
      ("performance", JVal.str nasaTlx.performance),
      ("effort", JVal.str nasaTlx.effort),
      ("frustration", JVal.str nasaTlx.frustration)]),
   ("likertResponses", JVal.obj
     [("accuracy", JVal.str likertResponses.accuracy),
      ("effectiveness", JVal.str likertResponses.effectiveness),
      ("personalisation", JVal.str likertResponses.personalisation)]),
   ("submittedAt", JVal.str submittedAt)]

/-- Observable outcome of one run of `TaskResults.handleSubmit`. -/
structure AssessSubmitRes where
  storage : Store
  nav : Option String
  toastShown : Bool
  toastDestructive : Bool
  apiCalled : Bool
  isSubmitting : Bool

/-- `TaskResults.handleSubmit` of the assessment variant
(TaskResults.tsx lines 63-132).  `taskData`, `uploadedFile`, `nasaTlx`,
`likertResponses` and `isSubmitting` are the component state at submit
time, `submittedAt` the clock reading, and `api` the settled outcome of
the awaited `apiService.saveAssessment` call. -/
def TaskResults.handleSubmit (taskData : Option Obj) (uploadedFile : Option String)
    (nasaTlx : NasaTlx) (likertResponses : LikertResponses) (isSubmitting : Bool)
    (submittedAt : String) (api : Except String SaveResult) (st : Store) :
    AssessSubmitRes :=
  let nasaTlxComplete := nasaTlx.values.all (fun v => v ≠ "")
  let likertComplete := likertResponses.values.all (fun v => v ≠ "")
  if ¬ nasaTlxComplete ∨ ¬ likertComplete then
    { storage := st, nav := none, toastShown := true, toastDestructive := true,
      apiCalled := false, isSubmitting := isSubmitting }
  else
    match taskData with
    | none =>
      { storage := st, nav := none, toastShown := true, toastDestructive := true,
        apiCalled := false, isSubmitting := isSubmitting }
    | some task =>
      if ¬ jsTruthy (fieldOr task "participantId") then
        { storage := st, nav := none, toastShown := true, toastDestructive := true,
          apiCalled := false, isSubmitting := isSubmitting }
      else
        let assessmentData :=
          mkAssessmentData task uploadedFile nasaTlx likertResponses submittedAt
        match api with
        | Except.ok _ =>
          { storage := eraseKV (eraseKV
              (insertKV st "sessionResults" assessmentData)
              "currentTask") "completedTask"
            nav := some "/"
            toastShown := true
            toastDestructive := false
            apiCalled := true
            isSubmitting := false }
        | Except.error _ =>
          { storage := st, nav := none, toastShown := true,
            toastDestructive := true, apiCalled := true, isSubmitting := false }

/-- Observable outcome of `handleFeedbackClick` in the feedback variant of
`TaskResults`. -/
structure FeedbackRes where
  storage : Store
  nav : Option String
  openedUrl : Option String

/-- `handleFeedbackClick` of the feedback variant of `TaskResults`: clean
up both session keys, open the external form, navigate home. -/
def handleFeedbackClick (st : Store) : FeedbackRes :=
  { storage := eraseKV (eraseKV st "currentTask") "completedTask"
    nav := some "/"
    openedUrl := some "https://forms.cloud.microsoft/Pages/ResponsePage.aspx" }

/-- Observable outcome of a page's mount effect: the redirect issued (if
any) and the task state loaded from `localStorage`. -/
structure MountRes where
  nav : Option String
  taskData : Option Obj

/-- The mount `useEffect` of `TaskSession` (TaskSession.tsx lines 22-31):
redirect to the form when no `currentTask` is stored, otherwise load it. -/
def TaskSession.mount (st : Store) : MountRes :=
  match lookupKV st "currentTask" with
  | none => { nav := some "/task-form", taskData := none }
  | some task => { nav := none, taskData := some task }

/-- The mount `useEffect` shared by both `TaskResults` variants
(assessment variant lines 39-46, feedback variant: the identical effect):
redirect home when no `completedTask` is stored, otherwise load it. -/
def TaskResults.mount (st : Store) : MountRes :=
  match lookupKV st "completedTask" with
  | none => { nav := some "/", taskData := none }
  | some task => { nav := none, taskData := some task }

/-- The component body's guard `if (!taskData) return Loading`: task
content renders exactly when task data is present. -/
def rendersTaskContent (taskData : Option Obj) : Bool :=
  match taskData with
  | none => false
  | some _ => true

/-- One tick of the `TaskSession` timer (TaskSession.tsx lines 33-42):
`Math.floor((now - startTime) / 1000)` with both instants in
milliseconds.  `Int.fdiv` is floor division, matching `Math.floor` on the
exact rational quotient. -/
def timerElapsed (startTime now : Int) : Int :=
  Int.fdiv (now - startTime) 1000

/-- The decimal digit character for `d` (`d ≤ 9`; larger inputs never
arise, they are mapped to `9`). -/
def digitChar (d : Nat) : Char :=
  match d with
  | 0 => '0' | 1 => '1' | 2 => '2' | 3 => '3' | 4 => '4'
  | 5 => '5' | 6 => '6' | 7 => '7' | 8 => '8' | _ => '9'

/-- The decimal rendering of a natural number as a character list: the
semantics of JavaScript number-to-string conversion for the non-negative
integers interpolated by `formatTime`. -/
def natDigits (n : Nat) : List Char :=
  if _h : n < 10 then [digitChar n]
  else natDigits (n / 10) ++ [digitChar (n % 10)]
decreasing_by exact Nat.div_lt_self (by omega) (by omega)

/-- JavaScript `s.padStart(2, "0")` on a character list: left-pad with
zeros to length two. -/
def pad2 (cs : List Char) : List Char :=
  List.replicate (2 - cs.length) '0' ++ cs

/-- `TaskSession.formatTime` (TaskSession.tsx lines 44-55) producing the
character list of the rendered clock string. -/
def formatTimeChars (seconds : Nat) : List Char :=
  let hours := seconds / 3600
  let minutes := (seconds % 3600) / 60
  let remainingSeconds := seconds % 60
  if hours > 0 then
    natDigits hours ++ ':' :: (pad2 (natDigits minutes) ++ ':' :: pad2 (natDigits remainingSeconds))
  else
    natDigits minutes ++ ':' :: pad2 (natDigits remainingSeconds)

/-- `TaskSession.formatTime` as a string. -/
def formatTime (seconds : Nat) : String :=
  String.mk (formatTimeChars seconds)

/-- Split a character list at every colon (used to read the rendered
clock components back). -/
def splitColon : List Char → List (List Char)
  | [] => [[]]
  | c :: cs =>
    if c = ':' then [] :: splitColon cs
    else
      match splitColon cs with
      | [] => [[c]]
      | g :: gs => (c :: g) :: gs

/-- Parse a non-empty all-digit character list as a decimal natural
number. -/
def parseDec (cs : List Char) : Option Nat :=
  if cs ≠ [] ∧ cs.all (fun c => c.isDigit) then
    some (cs.foldl (fun a c => 10 * a + (c.toNat - 48)) 0)
  else none

/-- Interpret a rendered clock string: split on colons, parse the two or
three decimal components, and combine them as
hours*3600 + minutes*60 + seconds. -/
def interpClock (s : String) : Option Nat :=
  match (splitColon s.data).map parseDec with
  | [some m, some sec] => some (m * 60 + sec)
  | [some h, some m, some sec] => some (h * 3600 + m * 60 + sec)
  | _ => none

theorem lookupKV_eraseKV_self {α : Type} (l : List (String × α)) (k : String) :
    lookupKV (eraseKV l k) k = none := by
  induction l with
  | nil => rfl
  | cons p l ih =>
    by_cases h : p.1 = k
    · simpa [eraseKV, h] using ih
    · simpa [eraseKV, h, lookupKV] using ih

theorem lookupKV_eraseKV_ne {α : Type} (l : List (String × α)) (k k' : String)
    (h : k' ≠ k) : lookupKV (eraseKV l k) k' = lookupKV l k' := by
  induction l with
  | nil => rfl
  | cons p l ih =>
    by_cases hp : p.1 = k
    · have hp' : ¬ p.1 = k' := by rw [hp]; exact fun hh => h hh.symm
      simp only [eraseKV, if_pos hp, lookupKV, if_neg hp']
      exact ih
    · by_cases hq : p.1 = k'
      · simp only [eraseKV, if_neg hp, lookupKV, if_pos hq]
      · simp only [eraseKV, if_neg hp, lookupKV, if_neg hq]
        exact ih

theorem lookupKV_append_right {α : Type} (a b : List (String × α)) (k : String)
    (h : lookupKV a k = none) : lookupKV (a ++ b) k = lookupKV b k := by
  induction a with
  | nil => rfl
  | cons p a ih =>
    by_cases hp : p.1 = k
    · simp [lookupKV, hp] at h
    · simp only [lookupKV, hp, if_neg hp, List.cons_append] at h ⊢
      exact ih h

theorem lookupKV_insertKV_self {α : Type} (l : List (String × α)) (k : String) (v : α) :
    lookupKV (insertKV l k v) k = some v := by
  have h := lookupKV_append_right (eraseKV l k) [(k, v)] k (lookupKV_eraseKV_self l k)
  simpa [insertKV, lookupKV] using h

theorem lookupKV_append_left {α : Type} (a b : List (String × α)) (k : String) (w : α)
    (h : lookupKV a k = some w) : lookupKV (a ++ b) k = some w := by
  induction a with
  | nil => simp [lookupKV] at h
  | cons p a ih =>
    by_cases hp : p.1 = k
    · simp only [lookupKV, if_pos hp, List.cons_append] at h ⊢
      exact h
    · simp only [lookupKV, if_neg hp, List.cons_append] at h ⊢
      exact ih h

theorem lookupKV_insertKV_ne {α : Type} (l : List (String × α)) (k k' : String) (v : α)
    (h : k' ≠ k) : lookupKV (insertKV l k v) k' = lookupKV l k' := by
  rw [insertKV, ← lookupKV_eraseKV_ne l k k' h]
  rcases hl : lookupKV (eraseKV l k) k' with _ | w
  · rw [lookupKV_append_right _ _ _ hl]
    simp only [lookupKV, if_neg (fun hh : k = k' => h hh.symm)]
  · exact lookupKV_append_left _ _ _ _ hl

/-- C1: when `apiService.stopInterventions` rejects during
`handleEndSession`, the session is still ended optimistically: a
`completedTask` record is written to `localStorage` that keeps every field
of the current task and adds `endTime`, `actualDuration` equal to the
elapsed time, `interventionsStopped := false` and
`error := "Failed to stop interventions"`, and navigation to
`"/task-results"` still occurs. -/
theorem c1_end_session_optimistic_on_failure
    (task : Obj) (elapsedTime : Int) (endTime errMsg : String) (st : Store) :
    lookupKV (TaskSession.handleEndSession (some task) false elapsedTime endTime
        (Except.error errMsg) st).storage "completedTask"
      = some (sessionDataErr task endTime elapsedTime) ∧
    (∀ k : String,
      k ∉ (["endTime", "actualDuration", "interventionsStopped", "error"] : List String) →
      lookupKV (sessionDataErr task endTime elapsedTime) k = lookupKV task k) ∧
    lookupKV (sessionDataErr task endTime elapsedTime) "endTime"
      = some (JVal.str endTime) ∧
    lookupKV (sessionDataErr task endTime elapsedTime) "actualDuration"
      = some (JVal.num elapsedTime) ∧
    lookupKV (sessionDataErr task endTime elapsedTime) "interventionsStopped"
      = some (JVal.bool false) ∧
    lookupKV (sessionDataErr task endTime elapsedTime) "error"
      = some (JVal.str "Failed to stop interventions") ∧
    (TaskSession.handleEndSession (some task) false elapsedTime endTime
        (Except.error errMsg) st).nav = some "/task-results" := by
  refine ⟨lookupKV_insertKV_self st "completedTask" _, ?_, ?_, ?_, ?_, ?_, rfl⟩
  · intro k hk
    simp only [List.mem_cons, List.not_mem_nil, or_false, not_or] at hk
    obtain ⟨h1, h2, h3, h4⟩ := hk
    rw [sessionDataErr, lookupKV_insertKV_ne _ _ _ _ h4,
      lookupKV_insertKV_ne _ _ _ _ h3, lookupKV_insertKV_ne _ _ _ _ h2,
      lookupKV_insertKV_ne _ _ _ _ h1]
  · rw [sessionDataErr, lookupKV_insertKV_ne _ _ _ _ (by decide),
      lookupKV_insertKV_ne _ _ _ _ (by decide),
      lookupKV_insertKV_ne _ _ _ _ (by decide), lookupKV_insertKV_self]
  · rw [sessionDataErr, lookupKV_insertKV_ne _ _ _ _ (by decide),
      lookupKV_insertKV_ne _ _ _ _ (by decide), lookupKV_insertKV_self]
  · rw [sessionDataErr, lookupKV_insertKV_ne _ _ _ _ (by decide),
      lookupKV_insertKV_self]
  · rw [sessionDataErr, lookupKV_insertKV_self]

/-- Witness for C1 at a concrete task, store, timer value and rejection. -/
theorem c1_end_session_optimistic_on_failure_witness :
    lookupKV (TaskSession.handleEndSession (some [("name", JVal.str "Alice")]) false 5
        "2025-01-02T03:04:05Z" (Except.error "network down") []).storage "completedTask"
      = some (sessionDataErr [("name", JVal.str "Alice")] "2025-01-02T03:04:05Z" 5) ∧
    lookupKV (sessionDataErr [("name", JVal.str "Alice")] "2025-01-02T03:04:05Z" 5) "name"
      = some (JVal.str "Alice") ∧
    (TaskSession.handleEndSession (some [("name", JVal.str "Alice")]) false 5
        "2025-01-02T03:04:05Z" (Except.error "network down") []).nav
      = some "/task-results" := by
  have h := c1_end_session_optimistic_on_failure
    [("name", JVal.str "Alice")] 5 "2025-01-02T03:04:05Z" "network down" []
  refine ⟨h.1, ?_, h.2.2.2.2.2.2⟩
  rw [h.2.1 "name" (by decide)]
  rfl

/-- C3: when `apiService.stopInterventions` resolves during
`handleEndSession`, the `completedTask` record written to `localStorage`
is the current task extended with `endTime`, `actualDuration` equal to the
elapsed time, and `interventionsStopped` true exactly when the returned
`stopResult.status` equals `"success"`; every other field of the task is
preserved unchanged. -/
theorem c3_end_session_success_record
    (task : Obj) (elapsedTime : Int) (endTime : String)
    (stopResult : StopResult) (st : Store) :
    lookupKV (TaskSession.handleEndSession (some task) false elapsedTime endTime
        (Except.ok stopResult) st).storage "completedTask"
      = some (sessionDataOk task endTime elapsedTime stopResult) ∧
    (∀ k : String,
      k ∉ (["endTime", "actualDuration", "interventionsStopped"] : List String) →
      lookupKV (sessionDataOk task endTime elapsedTime stopResult) k = lookupKV task k) ∧
    lookupKV (sessionDataOk task endTime elapsedTime stopResult) "endTime"
      = some (JVal.str endTime) ∧
    lookupKV (sessionDataOk task endTime elapsedTime stopResult) "actualDuration"
      = some (JVal.num elapsedTime) ∧
    lookupKV (sessionDataOk task endTime elapsedTime stopResult) "interventionsStopped"
      = some (JVal.bool (stopResult.status == "success")) ∧
    (lookupKV (sessionDataOk task endTime elapsedTime stopResult) "interventionsStopped"
        = some (JVal.bool true) ↔ stopResult.status = "success") := by
  refine ⟨lookupKV_insertKV_self st "completedTask" _, ?_, ?_, ?_, ?_, ?_⟩
  · intro k hk
    simp only [List.mem_cons, List.not_mem_nil, or_false, not_or] at hk
    obtain ⟨h1, h2, h3⟩ := hk
    rw [sessionDataOk, lookupKV_insertKV_ne _ _ _ _ h3,
      lookupKV_insertKV_ne _ _ _ _ h2, lookupKV_insertKV_ne _ _ _ _ h1]
  · rw [sessionDataOk, lookupKV_insertKV_ne _ _ _ _ (by decide),
      lookupKV_insertKV_ne _ _ _ _ (by decide), lookupKV_insertKV_self]
  · rw [sessionDataOk, lookupKV_insertKV_ne _ _ _ _ (by decide),
      lookupKV_insertKV_self]
  · rw [sessionDataOk, lookupKV_insertKV_self]
  · rw [sessionDataOk, lookupKV_insertKV_self]
    constructor
    · intro hv
      have hb : (stopResult.status == "success") = true := by
        simpa using hv
      exact beq_iff_eq.mp hb
    · intro hv
      simp [hv]

/-- Witness for C3 at a concrete task, store and stop result. -/
theorem c3_end_session_success_record_witness :
    lookupKV (TaskSession.handleEndSession (some [("batch", JVal.str "UG27")]) false 7
        "2025-01-02T03:04:05Z"
        (Except.ok { status := "success", message := "stopped" }) []).storage "completedTask"
      = some (sessionDataOk [("batch", JVal.str "UG27")] "2025-01-02T03:04:05Z" 7
          { status := "success", message := "stopped" }) ∧
    lookupKV (sessionDataOk [("batch", JVal.str "UG27")] "2025-01-02T03:04:05Z" 7
        { status := "success", message := "stopped" }) "batch"
      = some (JVal.str "UG27") ∧
    lookupKV (sessionDataOk [("batch", JVal.str "UG27")] "2025-01-02T03:04:05Z" 7
        { status := "success", message := "stopped" }) "interventionsStopped"
      = some (JVal.bool true) := by
  have h := c3_end_session_success_record
    [("batch", JVal.str "UG27")] 7 "2025-01-02T03:04:05Z"
    { status := "success", message := "stopped" } []
  refine ⟨h.1, ?_, ?_⟩
  · rw [h.2.1 "batch" (by decide)]
    rfl
  · exact h.2.2.2.2.2.mpr rfl

/-- C4: `TaskForm.handleSubmit` is validated: when any of the six string
fields is empty, the category list is empty, or the participant ID is not
a non-empty string of decimal digits, the handler shows a destructive
toast and returns with `localStorage` untouched, the API not called, and
no navigation. -/
theorem c4_form_validation_guard
    (formData : FormData) (startTimeNow : String)
    (api : Except String StartResult) (st : Store)
    (h : formData.name = "" ∨ formData.participantId = "" ∨ formData.batch = "" ∨
      formData.taskDescription = "" ∨ formData.estimatedTime = "" ∨
      formData.systemType = "" ∨ formData.category.length = 0 ∨
      isAllDigits formData.participantId = false) :
    (TaskForm.handleSubmit formData startTimeNow api st).storage = st ∧
    (TaskForm.handleSubmit formData startTimeNow api st).nav = none ∧
    (TaskForm.handleSubmit formData startTimeNow api st).toastShown = true ∧
    (TaskForm.handleSubmit formData startTimeNow api st).toastDestructive = true ∧
    (TaskForm.handleSubmit formData startTimeNow api st).apiCalled = false := by
  by_cases hc : formData.name = "" ∨ formData.participantId = "" ∨ formData.batch = "" ∨
      formData.category.length = 0 ∨ formData.taskDescription = "" ∨
      formData.estimatedTime = "" ∨ formData.systemType = ""
  · unfold TaskForm.handleSubmit
    rw [if_pos hc]
    exact ⟨rfl, rfl, rfl, rfl, rfl⟩
  · have h8 : isAllDigits formData.participantId = false := by
      rcases h with h|h|h|h|h|h|h|h
      · exact absurd (Or.inl h) hc
      · exact absurd (Or.inr (Or.inl h)) hc
      · exact absurd (Or.inr (Or.inr (Or.inl h))) hc
      · exact absurd (Or.inr (Or.inr (Or.inr (Or.inr (Or.inl h))))) hc
      · exact absurd (Or.inr (Or.inr (Or.inr (Or.inr (Or.inr (Or.inl h)))))) hc
      · exact absurd (Or.inr (Or.inr (Or.inr (Or.inr (Or.inr (Or.inr h)))))) hc
      · exact absurd (Or.inr (Or.inr (Or.inr (Or.inl h)))) hc
      · exact h
    unfold TaskForm.handleSubmit
    rw [if_neg hc, if_pos (show ¬ isAllDigits formData.participantId = true by simp [h8])]
    exact ⟨rfl, rfl, rfl, rfl, rfl⟩

/-- Witness for C4: an otherwise complete form whose participant ID
contains a letter is rejected without any effect. -/
theorem c4_form_validation_guard_witness :
    (TaskForm.handleSubmit
      { name := "Alice", participantId := "12a", batch := "UG26",
        category := ["coding"], taskDescription := "write tests",
        estimatedTime := "30", systemType := "system1" }
      "2025-01-02T03:04:05Z" (Except.ok { interventionsStarted := true })
      [("old", [])]).storage = [("old", [])] ∧
    (TaskForm.handleSubmit
      { name := "Alice", participantId := "12a", batch := "UG26",
        category := ["coding"], taskDescription := "write tests",
        estimatedTime := "30", systemType := "system1" }
      "2025-01-02T03:04:05Z" (Except.ok { interventionsStarted := true })
      [("old", [])]).nav = none ∧
    (TaskForm.handleSubmit
      { name := "Alice", participantId := "12a", batch := "UG26",
        category := ["coding"], taskDescription := "write tests",
        estimatedTime := "30", systemType := "system1" }
      "2025-01-02T03:04:05Z" (Except.ok { interventionsStarted := true })
      [("old", [])]).apiCalled = false := by
  have h := c4_form_validation_guard
    { name := "Alice", participantId := "12a", batch := "UG26",
      category := ["coding"], taskDescription := "write tests",
      estimatedTime := "30", systemType := "system1" }
    "2025-01-02T03:04:05Z" (Except.ok { interventionsStarted := true })
    [("old", [])]
    (by right; right; right; right; right; right; right; decide)
  exact ⟨h.1, h.2.1, h.2.2.2.2⟩

/-- C5: `TaskResults.handleSubmit` is validated: when any of the six NASA
TLX fields or any of the three Likert fields is the empty string, or the
task data has no `participantId`, the handler shows a destructive toast
and returns without calling `saveAssessment`, without modifying
`localStorage`, and without navigating. -/
theorem c5_assessment_validation_guard
    (taskData : Option Obj) (uploadedFile : Option String)
    (nasaTlx : NasaTlx) (likertResponses : LikertResponses)
    (isSubmitting : Bool) (submittedAt : String)
    (api : Except String SaveResult) (st : Store)
    (h : nasaTlx.mental = "" ∨ nasaTlx.physical = "" ∨ nasaTlx.temporal = "" ∨
      nasaTlx.performance = "" ∨ nasaTlx.effort = "" ∨ nasaTlx.frustration = "" ∨
      likertResponses.accuracy = "" ∨ likertResponses.effectiveness = "" ∨
      likertResponses.personalisation = "" ∨
      optField taskData "participantId" = none) :
    TaskResults.handleSubmit taskData uploadedFile nasaTlx likertResponses
        isSubmitting submittedAt api st =
      { storage := st, nav := none, toastShown := true, toastDestructive := true,
        apiCalled := false, isSubmitting := isSubmitting } := by
  have reject : (¬ nasaTlx.values.all (fun v => v ≠ "") = true ∨
      ¬ likertResponses.values.all (fun v => v ≠ "") = true) →
      TaskResults.handleSubmit taskData uploadedFile nasaTlx likertResponses
        isSubmitting submittedAt api st =
      { storage := st, nav := none, toastShown := true, toastDestructive := true,
        apiCalled := false, isSubmitting := isSubmitting } := by
    intro hcond
    simp only [TaskResults.handleSubmit]
    rw [if_pos hcond]
  rcases h with h|h|h|h|h|h|h|h|h|h
  · exact reject (Or.inl (by simp [NasaTlx.values, h]))
  · exact reject (Or.inl (by simp [NasaTlx.values, h]))
  · exact reject (Or.inl (by simp [NasaTlx.values, h]))
  · exact reject (Or.inl (by simp [NasaTlx.values, h]))
  · exact reject (Or.inl (by simp [NasaTlx.values, h]))
  · exact reject (Or.inl (by simp [NasaTlx.values, h]))
  · exact reject (Or.inr (by simp [LikertResponses.values, h]))
  · exact reject (Or.inr (by simp [LikertResponses.values, h]))
  · exact reject (Or.inr (by simp [LikertResponses.values, h]))
  · by_cases hc : ¬ nasaTlx.values.all (fun v => v ≠ "") = true ∨
        ¬ likertResponses.values.all (fun v => v ≠ "") = true
    · exact reject hc
    · rcases td : taskData with _ | task
      · subst td
        simp only [TaskResults.handleSubmit]
        rw [if_neg hc]
      · subst td
        simp only [optField] at h
        have hj : ¬ jsTruthy (fieldOr task "participantId") = true := by
          simp [fieldOr, h, jsTruthy]
        simp only [TaskResults.handleSubmit]
        rw [if_neg hc, if_pos hj]

/-- Witness for C5: a submission with an unanswered frustration rating is
rejected with no effect on storage. -/
theorem c5_assessment_validation_guard_witness :
    TaskResults.handleSubmit (some [("participantId", JVal.str "12")]) none
        { mental := "1", physical := "2", temporal := "3",
          performance := "4", effort := "5", frustration := "" }
        { accuracy := "1", effectiveness := "2", personalisation := "3" }
        false "2025-01-02T03:04:05Z"
        (Except.ok { isNewFile := true, totalEntries := 1 }) [("completedTask", [])] =
      { storage := [("completedTask", [])], nav := none, toastShown := true,
        toastDestructive := true, apiCalled := false, isSubmitting := false } := by
  exact c5_assessment_validation_guard (some [("participantId", JVal.str "12")]) none
    { mental := "1", physical := "2", temporal := "3",
      performance := "4", effort := "5", frustration := "" }
    { accuracy := "1", effectiveness := "2", personalisation := "3" }
    false "2025-01-02T03:04:05Z"
    (Except.ok { isNewFile := true, totalEntries := 1 }) [("completedTask", [])]
    (by right; right; right; right; right; left; rfl)

/-- C6: when `apiService.saveAssessment` rejects during a validated
`TaskResults.handleSubmit`, `localStorage` is left unchanged, no
navigation occurs, a destructive toast is shown, and `isSubmitting` is
reset to `false`, leaving the submission retriable. -/
theorem c6_assessment_atomic_on_failure
    (task : Obj) (uploadedFile : Option String)
    (nasaTlx : NasaTlx) (likertResponses : LikertResponses)
    (isSubmitting : Bool) (submittedAt errMsg : String) (st : Store)
    (h1 : nasaTlx.values.all (fun v => v ≠ "") = true)
    (h2 : likertResponses.values.all (fun v => v ≠ "") = true)
    (h3 : jsTruthy (fieldOr task "participantId") = true) :
    TaskResults.handleSubmit (some task) uploadedFile nasaTlx likertResponses
        isSubmitting submittedAt (Except.error errMsg) st =
      { storage := st, nav := none, toastShown := true, toastDestructive := true,
        apiCalled := true, isSubmitting := false } := by
  simp only [TaskResults.handleSubmit]
  rw [if_neg (show ¬ (¬ nasaTlx.values.all (fun v => v ≠ "") = true ∨
      ¬ likertResponses.values.all (fun v => v ≠ "") = true) by rw [h1, h2]; simp),
    if_neg (show ¬ ¬ jsTruthy (fieldOr task "participantId") = true by simp [h3])]

/-- Witness for C6: a fully answered assessment whose save rejects leaves
the pre-existing storage intact and the flag cleared. -/
theorem c6_assessment_atomic_on_failure_witness :
    TaskResults.handleSubmit (some [("participantId", JVal.str "12")]) none
        { mental := "1", physical := "2", temporal := "3",
          performance := "4", effort := "5", frustration := "6" }
        { accuracy := "1", effectiveness := "2", personalisation := "3" }
        true "2025-01-02T03:04:05Z" (Except.error "disk full")
        [("completedTask", []), ("currentTask", [])] =
      { storage := [("completedTask", []), ("currentTask", [])], nav := none,
        toastShown := true, toastDestructive := true, apiCalled := true,
        isSubmitting := false } := by
  exact c6_assessment_atomic_on_failure [("participantId", JVal.str "12")] none
    { mental := "1", physical := "2", temporal := "3",
      performance := "4", effort := "5", frustration := "6" }
    { accuracy := "1", effectiveness := "2", personalisation := "3" }
    true "2025-01-02T03:04:05Z" "disk full"
    [("completedTask", []), ("currentTask", [])]
    (by decide) (by decide) (by rfl)

/-- C7: browser storage is transient session state.  On a successful
assessment save, exactly the keys `sessionResults` (written with the
assessment data), `currentTask` (removed) and `completedTask` (removed)
change; and the feedback variant's `handleFeedbackClick` likewise removes
both session keys before navigating home, so no session key survives a
completed session. -/
theorem c7_storage_transient_session_state
    (task : Obj) (uploadedFile : Option String)
    (nasaTlx : NasaTlx) (likertResponses : LikertResponses)
    (isSubmitting : Bool) (submittedAt : String) (res : SaveResult)
    (st st2 : Store)
    (h1 : nasaTlx.values.all (fun v => v ≠ "") = true)
    (h2 : likertResponses.values.all (fun v => v ≠ "") = true)
    (h3 : jsTruthy (fieldOr task "participantId") = true) :
    (∀ k : String,
      k ∉ (["sessionResults", "currentTask", "completedTask"] : List String) →
      lookupKV (TaskResults.handleSubmit (some task) uploadedFile nasaTlx
        likertResponses isSubmitting submittedAt (Except.ok res) st).storage k
        = lookupKV st k) ∧
    lookupKV (TaskResults.handleSubmit (some task) uploadedFile nasaTlx
        likertResponses isSubmitting submittedAt (Except.ok res) st).storage
        "sessionResults"
      = some (mkAssessmentData task uploadedFile nasaTlx likertResponses submittedAt) ∧
    lookupKV (TaskResults.handleSubmit (some task) uploadedFile nasaTlx
        likertResponses isSubmitting submittedAt (Except.ok res) st).storage
        "currentTask" = none ∧
    lookupKV (TaskResults.handleSubmit (some task) uploadedFile nasaTlx
        likertResponses isSubmitting submittedAt (Except.ok res) st).storage
        "completedTask" = none ∧
    (TaskResults.handleSubmit (some task) uploadedFile nasaTlx likertResponses
        isSubmitting submittedAt (Except.ok res) st).nav = some "/" ∧
    (∀ k : String, k ∉ (["currentTask", "completedTask"] : List String) →
      lookupKV (handleFeedbackClick st2).storage k = lookupKV st2 k) ∧
    lookupKV (handleFeedbackClick st2).storage "currentTask" = none ∧
    lookupKV (handleFeedbackClick st2).storage "completedTask" = none ∧
    (handleFeedbackClick st2).nav = some "/" := by
  have hr : TaskResults.handleSubmit (some task) uploadedFile nasaTlx
      likertResponses isSubmitting submittedAt (Except.ok res) st =
      { storage := eraseKV (eraseKV (insertKV st "sessionResults"
          (mkAssessmentData task uploadedFile nasaTlx likertResponses submittedAt))
          "currentTask") "completedTask",
        nav := some "/", toastShown := true, toastDestructive := false,
        apiCalled := true, isSubmitting := false } := by
    simp only [TaskResults.handleSubmit]
    rw [if_neg (show ¬ (¬ nasaTlx.values.all (fun v => v ≠ "") = true ∨
        ¬ likertResponses.values.all (fun v => v ≠ "") = true) by rw [h1, h2]; simp),
      if_neg (show ¬ ¬ jsTruthy (fieldOr task "participantId") = true by simp [h3])]
  rw [hr]
  refine ⟨?_, ?_, ?_, ?_, rfl, ?_, ?_, ?_, rfl⟩
  · intro k hk
    simp only [List.mem_cons, List.not_mem_nil, or_false, not_or] at hk
    obtain ⟨k1, k2, k3⟩ := hk
    exact (lookupKV_eraseKV_ne _ _ _ k3).trans
      ((lookupKV_eraseKV_ne _ _ _ k2).trans (lookupKV_insertKV_ne _ _ _ _ k1))
  · exact (lookupKV_eraseKV_ne _ _ _ (by decide)).trans
      ((lookupKV_eraseKV_ne _ _ _ (by decide)).trans (lookupKV_insertKV_self _ _ _))
  · exact (lookupKV_eraseKV_ne _ _ _ (by decide)).trans (lookupKV_eraseKV_self _ _)
  · exact lookupKV_eraseKV_self _ _
  · intro k hk
    simp only [List.mem_cons, List.not_mem_nil, or_false, not_or] at hk
    obtain ⟨k1, k2⟩ := hk
    exact (lookupKV_eraseKV_ne _ _ _ k2).trans (lookupKV_eraseKV_ne _ _ _ k1)
  · exact (lookupKV_eraseKV_ne _ _ _ (by decide)).trans (lookupKV_eraseKV_self _ _)
  · exact lookupKV_eraseKV_self _ _

/-- Witness for C7 at a concrete completed session and a pre-populated
store. -/
theorem c7_storage_transient_session_state_witness :
    lookupKV (TaskResults.handleSubmit (some [("participantId", JVal.str "12")]) none
        { mental := "1", physical := "2", temporal := "3",
          performance := "4", effort := "5", frustration := "6" }
        { accuracy := "1", effectiveness := "2", personalisation := "3" }
        false "2025-01-02T03:04:05Z"
        (Except.ok { isNewFile := true, totalEntries := 1 })
        [("currentTask", []), ("completedTask", []), ("other", [])]).storage
        "currentTask" = none ∧
    lookupKV (TaskResults.handleSubmit (some [("participantId", JVal.str "12")]) none
        { mental := "1", physical := "2", temporal := "3",
          performance := "4", effort := "5", frustration := "6" }
        { accuracy := "1", effectiveness := "2", personalisation := "3" }
        false "2025-01-02T03:04:05Z"
        (Except.ok { isNewFile := true, totalEntries := 1 })
        [("currentTask", []), ("completedTask", []), ("other", [])]).storage
        "other" = some [] ∧
    lookupKV (handleFeedbackClick [("completedTask", [])]).storage "completedTask"
      = none := by
  have h := c7_storage_transient_session_state [("participantId", JVal.str "12")] none
    { mental := "1", physical := "2", temporal := "3",
      performance := "4", effort := "5", frustration := "6" }
    { accuracy := "1", effectiveness := "2", personalisation := "3" }
    false "2025-01-02T03:04:05Z" { isNewFile := true, totalEntries := 1 }
    [("currentTask", []), ("completedTask", []), ("other", [])] [("completedTask", [])]
    (by decide) (by decide) (by rfl)
  refine ⟨h.2.2.1, ?_, h.2.2.2.2.2.2.2.1⟩
  rw [h.1 "other" (by decide)]
  rfl

/-- C2: the pages enforce the three-step order.  Every run of
`TaskForm.handleSubmit` navigates at most to `"/task-session"`, every run
of `handleEndSession` at most to `"/task-results"`, and every run of
`TaskResults.handleSubmit` at most to `"/"`; moreover a successful form
submission reaches `"/task-session"`, ending a live session reaches
`"/task-results"`, and a successful validated assessment submission
reaches `"/"`. -/
theorem c2_three_step_navigation_order :
    (∀ (fd : FormData) (t : String) (api : Except String StartResult) (st : Store),
      (TaskForm.handleSubmit fd t api st).nav = none ∨
      (TaskForm.handleSubmit fd t api st).nav = some "/task-session") ∧
    (∀ (td : Option Obj) (ie : Bool) (e : Int) (t : String)
        (stop : Except String StopResult) (st : Store),
      (TaskSession.handleEndSession td ie e t stop st).nav = none ∨
      (TaskSession.handleEndSession td ie e t stop st).nav = some "/task-results") ∧
    (∀ (td : Option Obj) (uf : Option String) (n : NasaTlx) (l : LikertResponses)
        (isub : Bool) (sub : String) (api : Except String SaveResult) (st : Store),
      (TaskResults.handleSubmit td uf n l isub sub api st).nav = none ∨
      (TaskResults.handleSubmit td uf n l isub sub api st).nav = some "/") ∧
    (∀ (fd : FormData) (t : String) (r : StartResult) (st : Store),
      fd.name ≠ "" → fd.batch ≠ "" → fd.category.length ≠ 0 →
      fd.taskDescription ≠ "" → fd.estimatedTime ≠ "" → fd.systemType ≠ "" →
      isAllDigits fd.participantId = true →
      (TaskForm.handleSubmit fd t (Except.ok r) st).nav = some "/task-session") ∧
    (∀ (task : Obj) (e : Int) (t : String) (stop : Except String StopResult)
        (st : Store),
      (TaskSession.handleEndSession (some task) false e t stop st).nav
        = some "/task-results") ∧
    (∀ (task : Obj) (uf : Option String) (n : NasaTlx) (l : LikertResponses)
        (isub : Bool) (sub : String) (r : SaveResult) (st : Store),
      n.values.all (fun v => v ≠ "") = true →
      l.values.all (fun v => v ≠ "") = true →
      jsTruthy (fieldOr task "participantId") = true →
      (TaskResults.handleSubmit (some task) uf n l isub sub (Except.ok r) st).nav
        = some "/") := by
  refine ⟨?_, ?_, ?_, ?_, ?_, ?_⟩
  · intro fd t api st
    simp only [TaskForm.handleSubmit]
    by_cases hc : fd.name = "" ∨ fd.participantId = "" ∨ fd.batch = "" ∨
        fd.category.length = 0 ∨ fd.taskDescription = "" ∨
        fd.estimatedTime = "" ∨ fd.systemType = ""
    · rw [if_pos hc]; exact Or.inl rfl
    · rw [if_neg hc]
      by_cases hd : ¬ isAllDigits fd.participantId = true
      · rw [if_pos hd]; exact Or.inl rfl
      · rw [if_neg hd]
        cases api with
        | error e => exact Or.inl rfl
        | ok r => exact Or.inr rfl
  · intro td ie e t stop st
    cases td with
    | none => exact Or.inl rfl
    | some task =>
      cases ie with
      | true => exact Or.inl rfl
      | false =>
        cases stop with
        | error m => exact Or.inr rfl
        | ok r => exact Or.inr rfl
  · intro td uf n l isub sub api st
    by_cases hc : ¬ n.values.all (fun v => v ≠ "") = true ∨
        ¬ l.values.all (fun v => v ≠ "") = true
    · simp only [TaskResults.handleSubmit]
      rw [if_pos hc]; exact Or.inl rfl
    · cases td with
      | none =>
        simp only [TaskResults.handleSubmit]
        rw [if_neg hc]; exact Or.inl rfl
      | some task =>
        by_cases hj : ¬ jsTruthy (fieldOr task "participantId") = true
        · simp only [TaskResults.handleSubmit]
          rw [if_neg hc, if_pos hj]; exact Or.inl rfl
        · cases api with
          | error m =>
            simp only [TaskResults.handleSubmit]
            rw [if_neg hc, if_neg hj]; exact Or.inl rfl
          | ok r =>
            simp only [TaskResults.handleSubmit]
            rw [if_neg hc, if_neg hj]; exact Or.inr rfl
  · intro fd t r st h1 h2 h3 h4 h5 h6 h7
    have hp : fd.participantId ≠ "" := by
      intro he
      rw [isAllDigits, he] at h7
      simp at h7
    simp only [TaskForm.handleSubmit]
    rw [if_neg (show ¬ (fd.name = "" ∨ fd.participantId = "" ∨ fd.batch = "" ∨
        fd.category.length = 0 ∨ fd.taskDescription = "" ∨
        fd.estimatedTime = "" ∨ fd.systemType = "") by
      intro hcon
      rcases hcon with c|c|c|c|c|c|c
      · exact h1 c
      · exact hp c
      · exact h2 c
      · exact h3 c
      · exact h4 c
      · exact h5 c
      · exact h6 c),
      if_neg (show ¬ ¬ isAllDigits fd.participantId = true by simp [h7])]
  · intro task e t stop st
    cases stop with
    | error m => rfl
    | ok r => rfl
  · intro task uf n l isub sub r st h1 h2 h3
    simp only [TaskResults.handleSubmit]
    rw [if_neg (show ¬ (¬ n.values.all (fun v => v ≠ "") = true ∨
        ¬ l.values.all (fun v => v ≠ "") = true) by rw [h1, h2]; simp),
      if_neg (show ¬ ¬ jsTruthy (fieldOr task "participantId") = true by simp [h3])]

/-- Witness for C2: concrete runs of the three handlers produce exactly
the forward navigations of the three-step flow. -/
theorem c2_three_step_navigation_order_witness :
    (TaskForm.handleSubmit
      { name := "Alice", participantId := "12", batch := "UG26",
        category := ["coding"], taskDescription := "write tests",
        estimatedTime := "30", systemType := "system1" }
      "2025-01-02T03:04:05Z" (Except.ok { interventionsStarted := true }) []).nav
      = some "/task-session" ∧
    (TaskSession.handleEndSession (some [("participantId", JVal.str "12")]) false 5
      "2025-01-02T03:04:05Z" (Except.ok { status := "success", message := "ok" })
      []).nav = some "/task-results" ∧
    (TaskResults.handleSubmit (some [("participantId", JVal.str "12")]) none
      { mental := "1", physical := "2", temporal := "3",
        performance := "4", effort := "5", frustration := "6" }
      { accuracy := "1", effectiveness := "2", personalisation := "3" }
      false "2025-01-02T03:04:05Z"
      (Except.ok { isNewFile := true, totalEntries := 1 }) []).nav = some "/" := by
  refine ⟨?_, ?_, ?_⟩
  · exact c2_three_step_navigation_order.2.2.2.1
      { name := "Alice", participantId := "12", batch := "UG26",
        category := ["coding"], taskDescription := "write tests",
        estimatedTime := "30", systemType := "system1" }
      "2025-01-02T03:04:05Z" { interventionsStarted := true } []
      (by decide) (by decide) (by decide) (by decide) (by decide) (by decide)
      (by decide)
  · exact c2_three_step_navigation_order.2.2.2.2.1
      [("participantId", JVal.str "12")] 5 "2025-01-02T03:04:05Z"
      (Except.ok { status := "success", message := "ok" }) []
  · exact c2_three_step_navigation_order.2.2.2.2.2
      [("participantId", JVal.str "12")] none
      { mental := "1", physical := "2", temporal := "3",
        performance := "4", effort := "5", frustration := "6" }
      { accuracy := "1", effectiveness := "2", personalisation := "3" }
      false "2025-01-02T03:04:05Z" { isNewFile := true, totalEntries := 1 } []
      (by decide) (by decide) (by rfl)

/-- C8: the session timer is a local elapsed-time computation: each tick
computes the floor of (now − startTime)/1000 — characterised here by the
floor inequalities — and the `actualDuration` recorded by
`handleEndSession` equals the elapsed value at that moment, whatever the
outcome of the stop call. -/
theorem c8_timer_elapsed_time
    (startTime now : Int) (task : Obj) (elapsedTime : Int) (endTime : String)
    (stop : Except String StopResult) (st : Store) :
    (1000 * timerElapsed startTime now ≤ now - startTime ∧
      now - startTime < 1000 * (timerElapsed startTime now + 1)) ∧
    (∃ record : Obj,
      lookupKV (TaskSession.handleEndSession (some task) false elapsedTime endTime
          stop st).storage "completedTask" = some record ∧
      lookupKV record "actualDuration" = some (JVal.num elapsedTime)) := by
  constructor
  · rw [timerElapsed, Int.fdiv_eq_ediv _ (by omega)]
    omega
  · cases stop with
    | ok stopResult =>
      refine ⟨sessionDataOk task endTime elapsedTime stopResult,
        lookupKV_insertKV_self st "completedTask" _, ?_⟩
      rw [sessionDataOk, lookupKV_insertKV_ne _ _ _ _ (by decide),
        lookupKV_insertKV_self]
    | error msg =>
      refine ⟨sessionDataErr task endTime elapsedTime,
        lookupKV_insertKV_self st "completedTask" _, ?_⟩
      rw [sessionDataErr, lookupKV_insertKV_ne _ _ _ _ (by decide),
        lookupKV_insertKV_ne _ _ _ _ (by decide), lookupKV_insertKV_self]

/-- C10: each page guards its required session state on mount:
`TaskSession` redirects to `"/task-form"` exactly when no `currentTask`
is stored, both `TaskResults` variants redirect to `"/"` exactly when no
`completedTask` is stored, and task content is rendered exactly when the
respective record is present. -/
theorem c10_mount_guards (st : Store) :
    ((TaskSession.mount st).nav = some "/task-form" ↔
      lookupKV st "currentTask" = none) ∧
    (TaskSession.mount st).taskData = lookupKV st "currentTask" ∧
    ((TaskResults.mount st).nav = some "/" ↔
      lookupKV st "completedTask" = none) ∧
    (TaskResults.mount st).taskData = lookupKV st "completedTask" ∧
    (rendersTaskContent (TaskSession.mount st).taskData = true ↔
      ¬ lookupKV st "currentTask" = none) ∧
    (rendersTaskContent (TaskResults.mount st).taskData = true ↔
      ¬ lookupKV st "completedTask" = none) := by
  refine ⟨?_, ?_, ?_, ?_, ?_, ?_⟩
  · rcases h : lookupKV st "currentTask" with _ | task <;>
      simp [TaskSession.mount, h]
  · rcases h : lookupKV st "currentTask" with _ | task <;>
      simp [TaskSession.mount, h]
  · rcases h : lookupKV st "completedTask" with _ | task <;>
      simp [TaskResults.mount, h]
  · rcases h : lookupKV st "completedTask" with _ | task <;>
      simp [TaskResults.mount, h]
  · rcases h : lookupKV st "currentTask" with _ | task <;>
      simp [TaskSession.mount, h, rendersTaskContent]
  · rcases h : lookupKV st "completedTask" with _ | task <;>
      simp [TaskResults.mount, h, rendersTaskContent]

theorem digitChar_isDigit {d : Nat} (h : d < 10) : (digitChar d).isDigit = true := by
  interval_cases d <;> decide

theorem digitChar_toNat {d : Nat} (h : d < 10) : (digitChar d).toNat - 48 = d := by
  interval_cases d <;> decide

theorem isDigit_ne_colon {c : Char} (h : c.isDigit = true) : ¬ c = ':' := by
  intro hc
  rw [hc] at h
  exact absurd h (by decide)

theorem natDigits_ne_nil (n : Nat) : natDigits n ≠ [] := by
  rw [natDigits]
  by_cases h : n < 10
  · rw [dif_pos h]
    exact List.cons_ne_nil _ _
  · rw [dif_neg h]
    simp

theorem natDigits_all_digit (n : Nat) : ∀ c ∈ natDigits n, c.isDigit = true := by
  induction n using Nat.strong_induction_on with
  | _ n ih =>
    rw [natDigits]
    by_cases h : n < 10
    · rw [dif_pos h]
      intro c hc
      rw [List.mem_singleton] at hc
      rw [hc]
      exact digitChar_isDigit h
    · rw [dif_neg h]
      intro c hc
      rcases List.mem_append.mp hc with hc | hc
      · exact ih (n / 10) (Nat.div_lt_self (by omega) (by omega)) c hc
      · rw [List.mem_singleton] at hc
        rw [hc]
        exact digitChar_isDigit (Nat.mod_lt n (by omega))

theorem foldl_natDigits (n : Nat) :
    (natDigits n).foldl (fun a c => 10 * a + (c.toNat - 48)) 0 = n := by
  induction n using Nat.strong_induction_on with
  | _ n ih =>
    rw [natDigits]
    by_cases h : n < 10
    · rw [dif_pos h]
      simp only [List.foldl_cons, List.foldl_nil, Nat.mul_zero, Nat.zero_add]
      exact digitChar_toNat h
    · rw [dif_neg h]
      rw [List.foldl_append]
      rw [ih (n / 10) (Nat.div_lt_self (by omega) (by omega))]
      simp only [List.foldl_cons, List.foldl_nil]
      rw [digitChar_toNat (Nat.mod_lt n (by omega))]
      omega

theorem parseDec_natDigits (n : Nat) : parseDec (natDigits n) = some n := by
  rw [parseDec, if_pos, foldl_natDigits]
  refine ⟨natDigits_ne_nil n, ?_⟩
  rw [List.all_eq_true]
  intro c hc
  exact natDigits_all_digit n c hc

theorem foldl_replicate_zero (k : Nat) :
    (List.replicate k '0').foldl (fun a c => 10 * a + (c.toNat - 48)) 0 = 0 := by
  induction k with
  | zero => rfl
  | succ k ih =>
    rw [List.replicate_succ, List.foldl_cons]
    simpa using ih

theorem parseDec_pad2_natDigits (n : Nat) : parseDec (pad2 (natDigits n)) = some n := by
  rw [parseDec, if_pos]
  · rw [pad2, List.foldl_append, foldl_replicate_zero, foldl_natDigits]
  · constructor
    · rw [pad2]
      intro hnil
      exact natDigits_ne_nil n (List.append_eq_nil.mp hnil).2
    · rw [pad2, List.all_eq_true]
      intro c hc
      rcases List.mem_append.mp hc with hc | hc
      · rw [List.eq_of_mem_replicate hc]
        decide
      · exact natDigits_all_digit n c hc

theorem pad2_no_colon (cs : List Char) (h : ∀ c ∈ cs, ¬ c = ':') :
    ∀ c ∈ pad2 cs, ¬ c = ':' := by
  intro c hc
  rcases List.mem_append.mp hc with hc | hc
  · rw [List.eq_of_mem_replicate hc]
    decide
  · exact h c hc

theorem natDigits_no_colon (n : Nat) : ∀ c ∈ natDigits n, ¬ c = ':' :=
  fun c hc => isDigit_ne_colon (natDigits_all_digit n c hc)

theorem splitColon_no_colon (cs : List Char) (h : ∀ c ∈ cs, ¬ c = ':') :
    splitColon cs = [cs] := by
  induction cs with
  | nil => rfl
  | cons c cs ih =>
    rw [splitColon]
    rw [if_neg (h c (List.mem_cons_self c cs))]
    rw [ih (fun x hx => h x (List.mem_cons_of_mem c hx))]

theorem splitColon_append (a rest : List Char) (h : ∀ c ∈ a, ¬ c = ':') :
    splitColon (a ++ ':' :: rest) = a :: splitColon rest := by
  induction a with
  | nil =>
    rw [List.nil_append, splitColon, if_pos rfl]
  | cons c a ih =>
    rw [List.cons_append, splitColon]
    rw [if_neg (h c (List.mem_cons_self c a))]
    rw [ih (fun x hx => h x (List.mem_cons_of_mem c hx))]

theorem natDigits_length_le_two {n : Nat} (h : n < 100) :
    (natDigits n).length ≤ 2 := by
  rw [natDigits]
  by_cases h1 : n < 10
  · rw [dif_pos h1]
    simp
  · rw [dif_neg h1]
    rw [List.length_append]
    have h2 : n / 10 < 10 := by omega
    rw [natDigits, dif_pos h2]
    simp

theorem pad2_length (cs : List Char) (h : cs.length ≤ 2) :
    (pad2 cs).length = 2 := by
  rw [pad2, List.length_append, List.length_replicate]
  omega

/-- C9: `formatTime` round-trips.  Below one hour the rendering is
"M:SS" (minutes unpadded, seconds zero-padded to two digits), otherwise
"H:MM:SS" (hours unpadded, minutes and seconds zero-padded to two
digits), and in both cases reading the rendered components back as
hours*3600 + minutes*60 + seconds recovers the input. -/
theorem c9_format_time_round_trip (s : Nat) :
    (s < 3600 →
      formatTime s = String.mk (natDigits (s / 60) ++ ':' :: pad2 (natDigits (s % 60)))) ∧
    (3600 ≤ s →
      formatTime s = String.mk (natDigits (s / 3600) ++ ':' ::
        (pad2 (natDigits (s % 3600 / 60)) ++ ':' :: pad2 (natDigits (s % 60))))) ∧
    (pad2 (natDigits (s % 60))).length = 2 ∧
    (pad2 (natDigits (s % 3600 / 60))).length = 2 ∧
    interpClock (formatTime s) = some s := by
  have hsec : (natDigits (s % 60)).length ≤ 2 :=
    natDigits_length_le_two (by omega)
  have hmin : (natDigits (s % 3600 / 60)).length ≤ 2 :=
    natDigits_length_le_two (by omega)
  have heq1 : s < 3600 →
      formatTime s = String.mk (natDigits (s / 60) ++ ':' :: pad2 (natDigits (s % 60))) := by
    intro h
    simp only [formatTime, formatTimeChars]
    rw [Nat.mod_eq_of_lt h, Nat.div_eq_of_lt h,
      if_neg (by omega : ¬ (0 : Nat) > 0)]
  have heq2 : 3600 ≤ s →
      formatTime s = String.mk (natDigits (s / 3600) ++ ':' ::
        (pad2 (natDigits (s % 3600 / 60)) ++ ':' :: pad2 (natDigits (s % 60)))) := by
    intro h
    simp only [formatTime, formatTimeChars]
    rw [if_pos (by omega : s / 3600 > 0)]
  refine ⟨heq1, heq2, pad2_length _ hsec, pad2_length _ hmin, ?_⟩
  by_cases h : s < 3600
  · rw [heq1 h]
    unfold interpClock
    rw [show (String.mk (natDigits (s / 60) ++ ':' :: pad2 (natDigits (s % 60)))).data
        = natDigits (s / 60) ++ ':' :: pad2 (natDigits (s % 60)) from rfl]
    rw [splitColon_append _ _ (natDigits_no_colon _)]
    rw [splitColon_no_colon _ (pad2_no_colon _ (natDigits_no_colon _))]
    rw [List.map_cons, List.map_cons, List.map_nil]
    rw [parseDec_natDigits, parseDec_pad2_natDigits]
    exact congrArg some (by omega : s / 60 * 60 + s % 60 = s)
  · rw [heq2 (by omega)]
    unfold interpClock
    rw [show (String.mk (natDigits (s / 3600) ++ ':' ::
        (pad2 (natDigits (s % 3600 / 60)) ++ ':' :: pad2 (natDigits (s % 60))))).data
        = natDigits (s / 3600) ++ ':' ::
          (pad2 (natDigits (s % 3600 / 60)) ++ ':' :: pad2 (natDigits (s % 60))) from rfl]
    rw [splitColon_append _ _ (natDigits_no_colon _)]
    rw [splitColon_append _ _ (pad2_no_colon _ (natDigits_no_colon _))]
    rw [splitColon_no_colon _ (pad2_no_colon _ (natDigits_no_colon _))]
    rw [List.map_cons, List.map_cons, List.map_cons, List.map_nil]
    rw [parseDec_natDigits, parseDec_pad2_natDigits, parseDec_pad2_natDigits]
    exact congrArg some
      (by omega : s / 3600 * 3600 + s % 3600 / 60 * 60 + s % 60 = s)

/-- Witness for C9 at a sub-hour and an above-hour duration. -/
theorem c9_format_time_round_trip_witness :
    formatTime 125 = String.mk (natDigits (125 / 60) ++ ':' :: pad2 (natDigits (125 % 60))) ∧
    formatTime 3725 = String.mk (natDigits (3725 / 3600) ++ ':' ::
      (pad2 (natDigits (3725 % 3600 / 60)) ++ ':' :: pad2 (natDigits (3725 % 60)))) ∧
    interpClock (formatTime 125) = some 125 ∧
    interpClock (formatTime 3725) = some 3725 :=
  ⟨(c9_format_time_round_trip 125).1 (by decide),
   (c9_format_time_round_trip 3725).2.1 (by decide),
   (c9_format_time_round_trip 125).2.2.2.2,
   (c9_format_time_round_trip 3725).2.2.2.2⟩
